import Mathlib

/-!
Verification of `scrapexpathlist.py` (CJWorkbench/scrapexpathlist).

Shallow embedding of the module's functions. External collaborators
(urllib's `urlopen`, `gzip.decompress`, `bytes.decode`, lxml's parsing and
XPath evaluation) are passed in as explicit function parameters, mirroring
the source's own dependency injection of `urlopen`; the module's own logic
(`fetch`, `do_fetch`, `fetch_text`, `select`, `_item_to_string` and the
exception-handler chain of `do_fetch`) is translated line by line.

Bytes are `List Nat`; text is `String`.
-/

namespace Scrapexpathlist

/-- Response metadata, as consumed by the source: `get_content_type()`,
`get_content_charset()` and `get('Content-Encoding')`. -/
structure ResponseInfo where
  contentType : String
  contentCharset : Option String
  contentEncoding : Option String
deriving DecidableEq

/-- An HTTP response: its metadata and the raw body bytes the server sends. -/
structure Response where
  info : ResponseInfo
  body : List Nat
deriving DecidableEq

/-- Outcome of `urlopen(url, timeout=timeout)`: a response, a `URLError`,
or a `TimeoutError`. -/
inductive UrlopenResult where
  | ok (response : Response)
  | urlError (msg : String)
  | timeout
deriving DecidableEq

/-- Outcome of `gzip.decompress(b)`: decompressed bytes, `EOFError`
(truncated stream), or `OSError` (not valid gzip). -/
inductive GzipOutcome where
  | ok (data : List Nat)
  | truncated
  | notGzip
deriving DecidableEq

/-- The exceptions `fetch_text` can raise, per its docstring:
`URLError`, `TimeoutError`, `ValueError` (size limit), `EOFError`,
`OSError`, `UnicodeDecodeError`. Message-carrying constructors hold the
Python `str(err)` text. -/
inductive FetchExn where
  | urlError (msg : String)
  | timeoutError
  | eofError
  | osError
  | valueError (msg : String)
  | unicodeDecodeError (msg : String)
deriving DecidableEq

/-- Python `str(err)` for each exception, as used by the handlers in
`do_fetch` (`f'Fetch error: {str(err)}'` and `str(err)`). -/
def FetchExn.toStr : FetchExn → String
  | .urlError msg => msg
  | .timeoutError => "timed out"
  | .eofError => "Compression error"
  | .osError => "Not a gzipped file"
  | .valueError msg => msg
  | .unicodeDecodeError msg => msg

/-- The Python exception classes involved in `do_fetch`'s `except` chain. -/
inductive PyClass where
  | urlError
  | timeoutError
  | eofError
  | osError
  | valueError
  | unicodeDecodeError
deriving DecidableEq, BEq

/-- Python's builtin exception hierarchy, restricted to the classes above:
`urllib.error.URLError <: OSError`, `TimeoutError <: OSError`, and
`UnicodeDecodeError <: UnicodeError <: ValueError`. `EOFError` derives
directly from `Exception`. Every class is a subclass of itself. -/
def isSubclass : PyClass → PyClass → Bool
  | .urlError, .osError => true
  | .timeoutError, .osError => true
  | .unicodeDecodeError, .valueError => true
  | a, b => a == b

/-- The dynamic class of each raised exception. -/
def FetchExn.pyClass : FetchExn → PyClass
  | .urlError _ => .urlError
  | .timeoutError => .timeoutError
  | .eofError => .eofError
  | .osError => .osError
  | .valueError _ => .valueError
  | .unicodeDecodeError _ => .unicodeDecodeError

/-- The charset used for decoding:
`response.info().get_content_charset() or 'utf-8'`. Python `or` falls
through on `None` and on the empty string. -/
def effectiveCharset (info : ResponseInfo) : String :=
  match info.contentCharset with
  | none => "utf-8"
  | some c => if c = "" then "utf-8" else c

/-- Lines 193-196 of `fetch_text`, applied to the bytes already read:
gzip-decompress when `Content-Encoding: gzip` is declared (lines
193-194), then decode with the declared charset or UTF-8 (line 196).
`gzip_decompress` stands for `gzip.decompress` and `bytes_decode charset
bs` for `bs.decode(charset)` (`.error msg` being a `UnicodeDecodeError`
whose `str` is `msg`). -/
def decodeBody
    (gzip_decompress : List Nat → GzipOutcome)
    (bytes_decode : String → List Nat → Except String String)
    (info : ResponseInfo) (b : List Nat) :
    Except FetchExn (ResponseInfo × String) :=
  let afterGzip : Except FetchExn (List Nat) :=
    if info.contentEncoding = some "gzip" then
      match gzip_decompress b with
      | .ok data => .ok data
      | .truncated => .error .eofError
      | .notGzip => .error .osError
    else
      .ok b
  match afterGzip with
  | .error e => .error e
  | .ok b2 =>
    match bytes_decode (effectiveCharset info) b2 with
    | .error msg => .error (.unicodeDecodeError msg)
    | .ok text => .ok (info, text)

/-- `fetch_text(url, max_n_bytes, timeout, urlopen)`, lines 160-197.

Reads `response.read(max_n_bytes + 1)` (so at most `max_n_bytes + 1`
bytes, modelled as `body.take (max_n_bytes + 1)`); raises `ValueError`
when exactly `max_n_bytes + 1` come back; then decompresses and decodes
(`decodeBody`). -/
def fetch_text
    (gzip_decompress : List Nat → GzipOutcome)
    (bytes_decode : String → List Nat → Except String String)
    (urlopen : String → Nat → UrlopenResult)
    (url : String) (max_n_bytes : Nat) (timeout : Nat) :
    Except FetchExn (ResponseInfo × String) :=
  match urlopen url timeout with
  | .urlError msg => .error (.urlError msg)
  | .timeout => .error .timeoutError
  | .ok response =>
    let b := response.body.take (max_n_bytes + 1)
    if b.length = max_n_bytes + 1 then
      .error (.valueError s!"HTTP response is larger than {max_n_bytes} bytes")
    else
      decodeBody gzip_decompress bytes_decode response.info b

/-! ## The XPath result model and `select` -/

/-- An lxml element: `tag`, `.text`, children, `.tail`. -/
inductive Element where
  | mk (tag : String) (text : Option String) (children : List Element)
       (tail : Option String)

mutual

/-- `element.itertext()`: the text chunks of the subtree in document
order — the element's own `.text`, then, for each child, the child's
`itertext()` followed by the child's `.tail`. The element's own tail is
not part of its subtree. -/
def itertext : Element → List String
  | .mk _ text children _ => text.toList ++ itertextChildren children

def itertextChildren : List Element → List String
  | [] => []
  | c :: rest =>
    itertext c ++ (match c with | .mk _ _ _ tail => tail.toList)
      ++ itertextChildren rest

end

/-- An item of an XPath node-set result: an `Element` (has `itertext`),
or a smart string that is an attribute value, a text node, or a tail. -/
inductive XItem where
  | elem (e : Element)
  | attr (value : String)
  | text (content : String)
  | tail (content : String)

/-- `_item_to_string(item)`, lines 81-94: an Element (`hasattr(item,
'itertext')`) becomes `''.join(item.itertext())`; any other item
(attribute / text / tail smart string) becomes `str(item)`, its content. -/
def item_to_string : XItem → String
  | .elem e => String.join (itertext e)
  | .attr v => v
  | .text s => s
  | .tail s => s

/-- The value an XPath evaluation returns (spec's `SelectionResult`):
a node-set, a single string, a single float, or a single boolean. -/
inductive XPathResult where
  | nodeset (items : List XItem)
  | str (s : String)
  | number (x : Float)
  | boolean (b : Bool)

/-- The values `select` puts in its output list: strings, or the raw
float of a numeric result. -/
inductive XValue where
  | str (s : String)
  | number (x : Float)

/-- Python `hasattr(result, '__iter__')`: lists are iterable, `str` is
iterable (character-wise), `bool` and `float` are not. -/
def hasIterAttr : XPathResult → Bool
  | .nodeset _ => true
  | .str _ => true
  | .boolean _ => false
  | .number _ => false

/-- Python `isinstance(result, str)`. -/
def isinstanceStr : XPathResult → Bool
  | .str _ => true
  | _ => false

/-- Python `isinstance(result, bool)`. -/
def isinstanceBool : XPathResult → Bool
  | .boolean _ => true
  | _ => false

/-- Iterating the result, as `list(... for item in result)` would:
a node-set yields its items; a `str` yields its characters as 1-character
strings (each a text-like smart string); `bool` and `float` are not
iterable (these cases are never reached under `hasIterAttr`). -/
def iterToItems : XPathResult → List XItem
  | .nodeset items => items
  | .str s => s.toList.map (fun c => XItem.text (String.mk [c]))
  | .boolean _ => []
  | .number _ => []

/-- Python `str(result)` for the `isinstance(result, bool)` branch. -/
def pyStrBool : XPathResult → String
  | .boolean b => if b then "True" else "False"
  | .str s => s
  | .number _ => ""
  | .nodeset _ => ""

/-- The scalar `result` itself, as placed in `[result]` by the final
branch (reached only for `str` and `float` results). -/
def pyRaw : XPathResult → XValue
  | .str s => XValue.str s
  | .number x => XValue.number x
  | .boolean b => XValue.str (if b then "True" else "False")
  | .nodeset _ => XValue.str ""

/-- The result-shape dispatch of `select`, lines 104-112:
`if hasattr(result, '__iter__') and not isinstance(result, str)` convert
each item; `elif isinstance(result, bool)` return `[str(result)]`; else
return `[result]`. -/
def coerceResult (result : XPathResult) : List XValue :=
  if hasIterAttr result && !(isinstanceStr result) then
    (iterToItems result).map (fun item => XValue.str (item_to_string item))
  else if isinstanceBool result then
    [XValue.str (pyStrBool result)]
  else
    [pyRaw result]

/-- `select(tree, selector)`, lines 97-112: run the compiled selector on
the tree (which may raise `XPathEvalError`, modelled as `.error`), then
coerce the result. `selector` stands for the compiled `etree.XPath`
callable. -/
def select (tree : Element)
    (selector : Element → Except String XPathResult) :
    Except String (List XValue) :=
  match selector tree with
  | .error e => .error e
  | .ok result => .ok (coerceResult result)

/-! ## `do_fetch` and `fetch` -/

/-- The one-column result table: `DataFrame({'XPath result': values})`. -/
structure DataFrame where
  columnName : String
  values : List XValue

/-- What each `except` clause of `do_fetch` (lines 133-144) returns, in
source order: `URLError`, `TimeoutError`, `EOFError`, `OSError`,
`ValueError` (returns `str(err)`, intended for the size message), and
`UnicodeDecodeError`. -/
def clauseReply : PyClass → FetchExn → Option DataFrame × Option String
  | .urlError, e => (none, some ("Fetch error: " ++ e.toStr))
  | .timeoutError, _ => (none, some "HTTP request timed out")
  | .eofError, _ => (none, some "Compressed data was truncated")
  | .osError, _ => (none, some "Compressed data was not valid gzip")
  | .valueError, e => (none, some e.toStr)
  | .unicodeDecodeError, _ => (none, some "HTML or XML has invalid charset")

/-- The `except` clauses of `do_fetch` in their source order. -/
def exceptChain : List PyClass :=
  [.urlError, .timeoutError, .eofError, .osError, .valueError,
   .unicodeDecodeError]

/-- Python exception dispatch for `do_fetch`'s `try`: the first `except`
clause whose class the raised exception's class is a subclass of handles
it; with no matching clause the exception propagates (`.error`). -/
def handleFetchExn (e : FetchExn) :
    Except String (Option DataFrame × Option String) :=
  match exceptChain.find? (fun c => isSubclass e.pyClass c) with
  | some c => .ok (clauseReply c e)
  | none => .error e.toStr

/-- `do_fetch(url, selector, urlopen, max_n_bytes, timeout)`, lines
115-157. Note the source calls `fetch_text(url, urlopen=urlopen,
timeout=timeout)` without passing `max_n_bytes`, so `fetch_text` uses its
own default `5*1024*1024`. `parse_document text is_html` stands for
`parse_document` (lxml parsing; `.error` is a parse exception, which the
source does not catch — `# FIXME handle errors`). An uncaught exception
is `.error`; a normal return is `.ok (table, error_message)`. -/
def do_fetch
    (gzip_decompress : List Nat → GzipOutcome)
    (bytes_decode : String → List Nat → Except String String)
    (parse_document : String → Bool → Except String Element)
    (url : String)
    (selector : Element → Except String XPathResult)
    (urlopen : String → Nat → UrlopenResult)
    (max_n_bytes : Nat) (timeout : Nat) :
    Except String (Option DataFrame × Option String) :=
  match fetch_text gzip_decompress bytes_decode urlopen url
      (5 * 1024 * 1024) timeout with
  | .error e => handleFetchExn e
  | .ok (response_info, text) =>
    let is_html := response_info.contentType = "text/html"
    match parse_document text is_html with
    | .error msg => .error msg
    | .ok tree =>
      match select tree selector with
      | .error err => .ok (none, some ("XPath error: " ++ err))
      | .ok values =>
        .ok (some { columnName := "XPath result", values := values }, none)

/-- The `params` dict of `fetch`: `params['url']`, `params['selector']`.
Python's falsy test `not url` treats the empty string as absent. -/
structure Params where
  url : String
  selector : String

/-- `fetch(params)`, lines 22-37: validate URL then selector, compile the
XPath (`xpath_compile` stands for `xpath` / `etree.XPath`; `.error` is an
`XPathSyntaxError` message), then run `do_fetch` with its defaults
(`max_n_bytes = 5*1024*1024`, `timeout = 30`). -/
def fetch
    (xpath_compile :
      String → Except String (Element → Except String XPathResult))
    (gzip_decompress : List Nat → GzipOutcome)
    (bytes_decode : String → List Nat → Except String String)
    (parse_document : String → Bool → Except String Element)
    (urlopen : String → Nat → UrlopenResult)
    (params : Params) :
    Except String (Option DataFrame × Option String) :=
  if params.url = "" then
    .ok (none, some "Missing URL")
  else if params.selector = "" then
    .ok (none, some "Missing selector")
  else
    match xpath_compile params.selector with
    | .error err => .ok (none, some ("Bad XPath input: " ++ err))
    | .ok selector =>
      do_fetch gzip_decompress bytes_decode parse_document params.url
        selector urlopen (5 * 1024 * 1024) 30

/-! ## Concrete fixtures (model instances of the injected collaborators) -/

/-- A model of `gzip.decompress` on three concrete inputs: a well-formed
stream (magic bytes `0x1f 0x8b` followed by payload data) for the text
"hi", a stream cut off right after the magic bytes (truncated), and
anything else (bad magic number, `OSError`). -/
def gzFix : List Nat → GzipOutcome :=
  fun b =>
    if b = [31, 139, 8, 1] then .ok [104, 105]
    else if b = [31, 139] then .truncated
    else .notGzip

/-- A model of `bytes.decode`: byte `0xff` is never a valid UTF-8 start
byte, so it raises `UnicodeDecodeError` (whose `str(err)` is the codec
diagnostic, not a friendly message); other bytes decode one-to-one. -/
def decAscii : String → List Nat → Except String String :=
  fun _ bs =>
    if bs.contains 255 then
      .error "utf-8 codec cannot decode byte 0xff in position 0: invalid start byte"
    else
      .ok (String.mk (bs.map Char.ofNat))

/-- A model of `parse_document`: lxml's strict XML parser raises
`XMLSyntaxError` on the malformed document `"<"`; other inputs parse to
a trivial root element. -/
def parse_stub : String → Bool → Except String Element :=
  fun text _ =>
    if text = "<" then
      .error "XMLSyntaxError: Start tag expected, line 1, column 1"
    else
      .ok (Element.mk "html" none [] none)

/-- A compiled selector whose evaluation returns an empty node-set. -/
def sel_empty : Element → Except String XPathResult :=
  fun _ => .ok (.nodeset [])

/-- A model of `xpath` / `etree.XPath` that compiles every expression to
the empty-node-set selector. -/
def xcW : String → Except String (Element → Except String XPathResult) :=
  fun _ => .ok sel_empty

/-- Response metadata: `text/html`, no charset, no content encoding. -/
def infoHtml : ResponseInfo :=
  { contentType := "text/html", contentCharset := none,
    contentEncoding := none }

/-- Response metadata: `text/xml`, no charset, no content encoding. -/
def infoXml : ResponseInfo :=
  { contentType := "text/xml", contentCharset := none,
    contentEncoding := none }

/-- Response metadata declaring `Content-Encoding: gzip`. -/
def infoGzip : ResponseInfo :=
  { contentType := "text/html", contentCharset := none,
    contentEncoding := some "gzip" }

/-- A stubbed `urlopen` that always yields the given response. -/
def urlopenWith (r : Response) : String → Nat → UrlopenResult :=
  fun _ _ => .ok r

/-- The element `<c>c</c>` of the spec's running example. -/
def elemC : Element := .mk "c" (some "c") [] none

/-- The element `<d>d</d>` of the spec's running example. -/
def elemD : Element := .mk "d" (some "d") [] none

/-- The element `<b><c>c</c><d>d</d></b>` of the spec's running example. -/
def elemB : Element := .mk "b" none [elemC, elemD] none

/-! ## Helper lemmas -/

/-- Every `except` clause of `do_fetch` replies with a null table and a
populated error message. -/
theorem clauseReply_shape (c : PyClass) (e : FetchExn) :
    (clauseReply c e).1 = none ∧ (clauseReply c e).2.isSome := by
  cases c <;> simp [clauseReply]

/-- Every exception `fetch_text` can raise is caught by some `except`
clause of `do_fetch`, and the reply is a null table with a message. -/
theorem handleFetchExn_shape (e : FetchExn) :
    ∃ msg, handleFetchExn e = .ok (none, some msg) := by
  cases e <;> exact ⟨_, rfl⟩

/-- When the body is within the byte limit, `fetch_text` passes the size
check and hands the whole body to `decodeBody`. -/
theorem fetch_text_under_limit
    (gz : List Nat → GzipOutcome)
    (dec : String → List Nat → Except String String)
    (url : String) (m t : Nat) (info : ResponseInfo) (body : List Nat)
    (h : body.length ≤ m) :
    fetch_text gz dec (urlopenWith ⟨info, body⟩) url m t
      = decodeBody gz dec info body := by
  have htake : body.take (m + 1) = body := List.take_of_length_le (by omega)
  have step : fetch_text gz dec (urlopenWith ⟨info, body⟩) url m t
      = if (body.take (m + 1)).length = m + 1 then
          Except.error (FetchExn.valueError
            s!"HTTP response is larger than {m} bytes")
        else decodeBody gz dec info (body.take (m + 1)) := rfl
  rw [step, htake, if_neg (by omega)]

/-- When at least `m + 1` bytes are available, `fetch_text` reads exactly
`m + 1` of them and aborts with the size `ValueError`. -/
theorem fetch_text_over_limit
    (gz : List Nat → GzipOutcome)
    (dec : String → List Nat → Except String String)
    (url : String) (m t : Nat) (info : ResponseInfo) (body : List Nat)
    (h : m + 1 ≤ body.length) :
    fetch_text gz dec (urlopenWith ⟨info, body⟩) url m t
      = .error (.valueError s!"HTTP response is larger than {m} bytes") := by
  have hlen : (body.take (m + 1)).length = m + 1 := by
    rw [List.length_take]; omega
  have step : fetch_text gz dec (urlopenWith ⟨info, body⟩) url m t
      = if (body.take (m + 1)).length = m + 1 then
          Except.error (FetchExn.valueError
            s!"HTTP response is larger than {m} bytes")
        else decodeBody gz dec info (body.take (m + 1)) := rfl
  rw [step, if_pos hlen]

/-- A normal return of `do_fetch` carries either a table or an error
message, never both and never neither. -/
theorem do_fetch_ok_exclusive
    (gz : List Nat → GzipOutcome)
    (dec : String → List Nat → Except String String)
    (parse : String → Bool → Except String Element)
    (url : String) (sel : Element → Except String XPathResult)
    (urlopen : String → Nat → UrlopenResult) (m t : Nat)
    (r : Option DataFrame × Option String)
    (h : do_fetch gz dec parse url sel urlopen m t = .ok r) :
    (r.1.isSome ∧ r.2 = none) ∨ (r.1 = none ∧ r.2.isSome) := by
  unfold do_fetch at h
  split at h
  case _ e _ =>
    obtain ⟨msg, hm⟩ := handleFetchExn_shape e
    rw [hm] at h
    simp only [Except.ok.injEq] at h
    subst h
    exact Or.inr ⟨rfl, rfl⟩
  case _ p _ =>
    dsimp only at h
    split at h
    case _ msg _ =>
      exact absurd h (by simp)
    case _ tree _ =>
      split at h
      case _ err _ =>
        simp only [Except.ok.injEq] at h
        subst h
        exact Or.inr ⟨rfl, rfl⟩
      case _ values _ =>
        simp only [Except.ok.injEq] at h
        subst h
        exact Or.inl ⟨rfl, rfl⟩

/-! ## Claim theorems -/

/-- Claim C1, amended: whenever the top-level `fetch` returns normally,
it returns exactly one of a table with a null error or a null table with
an error string — never both populated and never both null. (The claim's
further assertion that no unhandled fault escapes for documents that fail
to parse is refuted by `C1_parse_fault_escapes`: `do_fetch` calls
`parse_document` outside any `try`, so a parse exception propagates.) -/
theorem C1_fetch_outcome_exclusive
    (xc : String → Except String (Element → Except String XPathResult))
    (gz : List Nat → GzipOutcome)
    (dec : String → List Nat → Except String String)
    (parse : String → Bool → Except String Element)
    (urlopen : String → Nat → UrlopenResult)
    (params : Params) (r : Option DataFrame × Option String)
    (h : fetch xc gz dec parse urlopen params = .ok r) :
    (r.1.isSome ∧ r.2 = none) ∨ (r.1 = none ∧ r.2.isSome) := by
  unfold fetch at h
  split at h
  · simp only [Except.ok.injEq] at h
    subst h
    exact Or.inr ⟨rfl, rfl⟩
  · split at h
    · simp only [Except.ok.injEq] at h
      subst h
      exact Or.inr ⟨rfl, rfl⟩
    · split at h
      case _ err _ =>
        simp only [Except.ok.injEq] at h
        subst h
        exact Or.inr ⟨rfl, rfl⟩
      case _ sel _ =>
        exact do_fetch_ok_exclusive gz dec parse params.url sel urlopen
          (5 * 1024 * 1024) 30 r h

/-- Witness for C1: a concrete successful fetch, whose outcome is a
populated table and a null error. -/
theorem C1_fetch_outcome_exclusive_witness :
    (((some { columnName := "XPath result", values := [] } : Option DataFrame),
        (none : Option String)).1.isSome
      ∧ ((some { columnName := "XPath result", values := [] } : Option DataFrame),
        (none : Option String)).2 = none)
    ∨ (((some { columnName := "XPath result", values := [] } : Option DataFrame),
        (none : Option String)).1 = none
      ∧ ((some { columnName := "XPath result", values := [] } : Option DataFrame),
        (none : Option String)).2.isSome) :=
  C1_fetch_outcome_exclusive xcW gzFix decAscii parse_stub
    (urlopenWith ⟨infoHtml, [104, 105]⟩) ⟨"http://example.org", "//p"⟩
    (some { columnName := "XPath result", values := [] }, none) rfl

/-- Counterexample to C1 as stated: an XML document that fails to parse
makes the parse exception escape `do_fetch` unhandled (`.error`), because
the call `parse_document(text, is_html)` sits outside the `try` block
(`# FIXME handle errors`). -/
theorem C1_parse_fault_escapes :
    do_fetch gzFix decAscii parse_stub "http://example.org" sel_empty
      (urlopenWith { info := infoXml, body := [60] }) (5 * 1024 * 1024) 30
      = .error "XMLSyntaxError: Start tag expected, line 1, column 1" := rfl

/-- Claim C2 is violated by the code: `UnicodeDecodeError` is a subclass
of `ValueError` in Python, and `do_fetch`'s `except ValueError` clause
(line 141) precedes its `except UnicodeDecodeError` clause (line 143), so
an undecodable body is answered with `str(err)` — the codec diagnostic —
and never with "HTML or XML has invalid charset". Here byte `0xff` under
the UTF-8 fallback. -/
theorem C2_charset_error_message_bug :
    do_fetch gzFix decAscii parse_stub "http://example.org" sel_empty
      (urlopenWith { info := infoHtml, body := [255] }) (5 * 1024 * 1024) 30
      = .ok (none,
          some "utf-8 codec cannot decode byte 0xff in position 0: invalid start byte")
    ∧ "utf-8 codec cannot decode byte 0xff in position 0: invalid start byte"
        ≠ "HTML or XML has invalid charset" :=
  ⟨rfl, by decide⟩

/-- Claim C3 is violated by the code: `do_fetch` never forwards its
`max_n_bytes` argument to `fetch_text` (line 131 passes only `url`,
`urlopen` and `timeout`), so the result is independent of the caller's
`max_n_bytes`; concretely, with `max_n_bytes = 0` a two-byte body is
still fetched successfully instead of aborting. -/
theorem C3_max_n_bytes_not_forwarded :
    (∀ (gz : List Nat → GzipOutcome)
       (dec : String → List Nat → Except String String)
       (parse : String → Bool → Except String Element)
       (url : String) (sel : Element → Except String XPathResult)
       (urlopen : String → Nat → UrlopenResult) (m₁ m₂ t : Nat),
        do_fetch gz dec parse url sel urlopen m₁ t
          = do_fetch gz dec parse url sel urlopen m₂ t)
    ∧ do_fetch gzFix decAscii parse_stub "http://example.org" sel_empty
        (urlopenWith { info := infoHtml, body := [104, 105] }) 0 30
        = .ok (some { columnName := "XPath result", values := [] }, none) :=
  ⟨fun _ _ _ _ _ _ _ _ _ => rfl, rfl⟩

/-- Claim C4: a body of exactly `max_n_bytes` bytes passes the size check
and is decoded; receiving `max_n_bytes + 1` bytes aborts with the
`ValueError` naming the configured limit; and the outcome depends only on
the first `max_n_bytes + 1` bytes of the body (never more are read). -/
theorem C4_size_boundary
    (gz : List Nat → GzipOutcome)
    (dec : String → List Nat → Except String String)
    (url : String) (m t : Nat) (info : ResponseInfo)
    (body : List Nat) (text : String)
    (hlen : body.length = m)
    (henc : info.contentEncoding ≠ some "gzip")
    (hdec : dec (effectiveCharset info) body = .ok text) :
    fetch_text gz dec (urlopenWith ⟨info, body⟩) url m t = .ok (info, text)
    ∧ (∀ body2 : List Nat, m + 1 ≤ body2.length →
        fetch_text gz dec (urlopenWith ⟨info, body2⟩) url m t
          = .error (.valueError s!"HTTP response is larger than {m} bytes"))
    ∧ (∀ (b₁ b₂ : List Nat) (i : ResponseInfo),
        b₁.take (m + 1) = b₂.take (m + 1) →
        fetch_text gz dec (urlopenWith ⟨i, b₁⟩) url m t
          = fetch_text gz dec (urlopenWith ⟨i, b₂⟩) url m t) := by
  refine ⟨?_, fun body2 h2 => fetch_text_over_limit gz dec url m t info body2 h2,
    fun b₁ b₂ i hb => ?_⟩
  · rw [fetch_text_under_limit gz dec url m t info body (le_of_eq hlen)]
    simp [decodeBody, henc, hdec]
  · have s₁ : fetch_text gz dec (urlopenWith ⟨i, b₁⟩) url m t
        = if (b₁.take (m + 1)).length = m + 1 then
            Except.error (FetchExn.valueError
              s!"HTTP response is larger than {m} bytes")
          else decodeBody gz dec i (b₁.take (m + 1)) := rfl
    have s₂ : fetch_text gz dec (urlopenWith ⟨i, b₂⟩) url m t
        = if (b₂.take (m + 1)).length = m + 1 then
            Except.error (FetchExn.valueError
              s!"HTTP response is larger than {m} bytes")
          else decodeBody gz dec i (b₂.take (m + 1)) := rfl
    rw [s₁, s₂, hb]

/-- Witness for C4: a two-byte body with limit 2 decodes to "hi". -/
theorem C4_size_boundary_witness :
    fetch_text gzFix decAscii (urlopenWith ⟨infoHtml, [104, 105]⟩)
      "http://example.org" 2 30 = .ok (infoHtml, "hi") :=
  (C4_size_boundary gzFix decAscii "http://example.org" 2 30 infoHtml
    [104, 105] "hi" rfl (by decide) rfl).1

/-- Claim C5: a node-set result is converted item by item, in order, to
strings: an element becomes the concatenation of its subtree's text in
document order (`''.join(item.itertext())`), an attribute its value, a
text or tail node its content; on the spec's example
`<b><c>c</c><d>d</d></b>` the element renders as "cd". -/
theorem C5_nodeset_to_strings :
    (∀ (tree : Element) (items : List XItem),
        select tree (fun _ => .ok (.nodeset items))
          = .ok (items.map (fun item => XValue.str (item_to_string item))))
    ∧ (∀ e : Element, item_to_string (.elem e) = String.join (itertext e))
    ∧ (∀ v : String, item_to_string (.attr v) = v)
    ∧ (∀ s : String, item_to_string (.text s) = s)
    ∧ (∀ s : String, item_to_string (.tail s) = s)
    ∧ item_to_string (.elem elemB) = "cd" :=
  ⟨fun _ _ => rfl, fun _ => rfl, fun _ => rfl, fun _ => rfl, fun _ => rfl,
    rfl⟩

/-- Claim C6: a single-string XPath result (e.g. the literal selector
`'ab'`) is returned whole as a one-element list — the
`not isinstance(result, str)` guard keeps it out of the iteration branch,
so it is never exploded character-wise. -/
theorem C6_string_not_exploded :
    (∀ (tree : Element) (s : String),
        select tree (fun _ => .ok (.str s)) = .ok [XValue.str s])
    ∧ select elemB (fun _ => .ok (.str "ab")) = .ok [XValue.str "ab"]
    ∧ select elemB (fun _ => .ok (.str "ab"))
        ≠ .ok [XValue.str "a", XValue.str "b"] := by
  refine ⟨fun _ _ => rfl, rfl, fun h => ?_⟩
  have h2 : ([XValue.str "ab"] : List XValue)
      = [XValue.str "a", XValue.str "b"] := Except.ok.inj h
  have h3 := congrArg List.length h2
  simp at h3

/-- Claim C7: a single boolean result is returned as the one-element list
of its Python string form (`str(True)` / `str(False)`), and a single
numeric result is returned as the one-element list of the raw float, not
stringified. -/
theorem C7_scalar_bool_number :
    (∀ (tree : Element) (b : Bool),
        select tree (fun _ => .ok (.boolean b))
          = .ok [XValue.str (if b then "True" else "False")])
    ∧ (∀ (tree : Element) (x : Float),
        select tree (fun _ => .ok (.number x)) = .ok [XValue.number x]) :=
  ⟨fun _ _ => rfl, fun _ _ => rfl⟩

/-- Claim C8: under `Content-Encoding: gzip` the full byte buffer is
decompressed before charset decoding, so a compressed body round-trips to
the original text; a truncated stream (`EOFError`) is reported by
`do_fetch` as "Compressed data was truncated" and non-gzip bytes
(`OSError`) as "Compressed data was not valid gzip". -/
theorem C8_gzip_behavior
    (gz : List Nat → GzipOutcome)
    (dec : String → List Nat → Except String String)
    (info : ResponseInfo) (compressed original : List Nat) (text : String)
    (henc : info.contentEncoding = some "gzip") :
    (∀ (url : String) (m t : Nat), compressed.length ≤ m →
        gz compressed = .ok original →
        dec (effectiveCharset info) original = .ok text →
        fetch_text gz dec (urlopenWith ⟨info, compressed⟩) url m t
          = .ok (info, text))
    ∧ (∀ (parse : String → Bool → Except String Element)
         (sel : Element → Except String XPathResult)
         (url : String) (mb t : Nat),
        compressed.length ≤ 5 * 1024 * 1024 → gz compressed = .truncated →
        do_fetch gz dec parse url sel (urlopenWith ⟨info, compressed⟩) mb t
          = .ok (none, some "Compressed data was truncated"))
    ∧ (∀ (parse : String → Bool → Except String Element)
         (sel : Element → Except String XPathResult)
         (url : String) (mb t : Nat),
        compressed.length ≤ 5 * 1024 * 1024 → gz compressed = .notGzip →
        do_fetch gz dec parse url sel (urlopenWith ⟨info, compressed⟩) mb t
          = .ok (none, some "Compressed data was not valid gzip")) := by
  refine ⟨fun url m t hle hgz hdec => ?_,
    fun parse sel url mb t hle hgz => ?_, fun parse sel url mb t hle hgz => ?_⟩
  · rw [fetch_text_under_limit gz dec url m t info compressed hle]
    simp [decodeBody, henc, hgz, hdec]
  · have hft : fetch_text gz dec (urlopenWith ⟨info, compressed⟩) url
        (5 * 1024 * 1024) t = .error .eofError := by
      rw [fetch_text_under_limit gz dec url (5 * 1024 * 1024) t info
        compressed hle]
      simp [decodeBody, henc, hgz]
    unfold do_fetch
    rw [hft]
    rfl
  · have hft : fetch_text gz dec (urlopenWith ⟨info, compressed⟩) url
        (5 * 1024 * 1024) t = .error .osError := by
      rw [fetch_text_under_limit gz dec url (5 * 1024 * 1024) t info
        compressed hle]
      simp [decodeBody, henc, hgz]
    unfold do_fetch
    rw [hft]
    rfl

/-- Witness for C8: a concrete four-byte gzip stream decompresses to
"hi" through `fetch_text`. -/
theorem C8_gzip_behavior_witness :
    fetch_text gzFix decAscii (urlopenWith ⟨infoGzip, [31, 139, 8, 1]⟩)
      "http://example.org" 4 30 = .ok (infoGzip, "hi") :=
  (C8_gzip_behavior gzFix decAscii infoGzip [31, 139, 8, 1] [104, 105]
    "hi" rfl).1 "http://example.org" 4 30 (by decide) rfl rfl

/-- Claim C9: an empty URL is answered with "Missing URL" and a non-empty
URL with an empty selector with "Missing selector", in both cases
independently of the XPath compiler, the parser and the network stub —
the validation returns before either could be consulted. -/
theorem C9_missing_url_and_selector :
    (∀ (xc : String → Except String (Element → Except String XPathResult))
       (gz : List Nat → GzipOutcome)
       (dec : String → List Nat → Except String String)
       (parse : String → Bool → Except String Element)
       (urlopen : String → Nat → UrlopenResult) (sel : String),
        fetch xc gz dec parse urlopen ⟨"", sel⟩
          = .ok (none, some "Missing URL"))
    ∧ (∀ (xc : String → Except String (Element → Except String XPathResult))
         (gz : List Nat → GzipOutcome)
         (dec : String → List Nat → Except String String)
         (parse : String → Bool → Except String Element)
         (urlopen : String → Nat → UrlopenResult) (url : String),
        url ≠ "" →
        fetch xc gz dec parse urlopen ⟨url, ""⟩
          = .ok (none, some "Missing selector")) := by
  refine ⟨fun _ _ _ _ _ _ => rfl, fun xc gz dec parse urlopen url hurl => ?_⟩
  simp [fetch, hurl]

/-- Witness for C9: a concrete request with a URL but an empty selector. -/
theorem C9_missing_url_and_selector_witness :
    fetch xcW gzFix decAscii parse_stub (urlopenWith ⟨infoHtml, []⟩)
      ⟨"http://example.org", ""⟩ = .ok (none, some "Missing selector") :=
  C9_missing_url_and_selector.2 xcW gzFix decAscii parse_stub
    (urlopenWith ⟨infoHtml, []⟩) "http://example.org" (by decide)

/-- Claim C10: the byte ceiling is checked on the raw received bytes
before gzip decompression: a gzip-labeled body within the limit can never
produce the size `ValueError`, whatever the decompressor returns (however
large the decompressed data), while a raw body over the limit aborts with
the size error even under the gzip label. -/
theorem C10_limit_precedes_decompression
    (gz : List Nat → GzipOutcome)
    (dec : String → List Nat → Except String String)
    (url : String) (m t : Nat) (info : ResponseInfo) (body : List Nat)
    (henc : info.contentEncoding = some "gzip")
    (hlen : body.length ≤ m) :
    (∀ msg, fetch_text gz dec (urlopenWith ⟨info, body⟩) url m t
        ≠ .error (.valueError msg))
    ∧ (∀ body2 : List Nat, m + 1 ≤ body2.length →
        fetch_text gz dec (urlopenWith ⟨info, body2⟩) url m t
          = .error (.valueError s!"HTTP response is larger than {m} bytes")) := by
  refine ⟨fun msg hcontra => ?_,
    fun body2 h2 => fetch_text_over_limit gz dec url m t info body2 h2⟩
  rw [fetch_text_under_limit gz dec url m t info body hlen] at hcontra
  unfold decodeBody at hcontra
  rw [if_pos henc] at hcontra
  rcases hg : gz body with data | _ | _
  · rcases hd : dec (effectiveCharset info) data with msg2 | text2 <;>
      simp [hg, hd] at hcontra
  · simp [hg] at hcontra
  · simp [hg] at hcontra

/-- Witness for C10: under a four-byte limit with the gzip label, a
five-byte raw body is rejected for size (the check applies to the raw
bytes), instantiating the theorem at a concrete input. -/
theorem C10_limit_precedes_decompression_witness :
    fetch_text gzFix decAscii (urlopenWith ⟨infoGzip, [31, 139, 8, 1, 0]⟩)
      "http://example.org" 4 30
      = .error (.valueError "HTTP response is larger than 4 bytes") :=
  (C10_limit_precedes_decompression gzFix decAscii "http://example.org" 4 30
    infoGzip [31, 139, 8, 1] rfl (by decide)).2 [31, 139, 8, 1, 0]
    (by decide)

end Scrapexpathlist
